import Mathlib

/-!
Shallow embedding of `replication_setup.py` (Azure PostgreSQL logical
replication orchestration).

The environment is a map from variable names to optional string values.
The database side effects visible to the script are modelled by a `World`:
the outcome each administrative query would have on the two servers
(`none` meaning the query raises), plus flags saying whether each
connection attempt and each CREATE statement succeeds.  Every function of
the script becomes a pure Lean function from a `World` to its Python
return value, the updated `World`, and the trace of observable events
(connection attempts, SQL statements executed with their isolation mode,
and printed lines).  `sys.exit(n)` is modelled by `Except.error n`
propagating to the top level; `main` therefore returns `Except Nat Unit`
and the process exit code is `0` on `ok` and `n` on `error n`.
-/

namespace ReplicationSetup

/-- The process environment: `os.environ.get` returns `none` when a variable
is absent. -/
abbrev Env := String → Option String

/-- Python truthiness of `os.environ.get(var)`: `None` and the empty string
are falsy. -/
def truthy : Option String → Bool
  | none => false
  | some s => !(s == "")

/-- Python `f"{x}"` applied to an `os.environ.get` result: `None` prints as
`"None"`. -/
def optStr : Option String → String
  | none => "None"
  | some s => s

/-- Python `str(b)` for a boolean column value. -/
def pyBool : Bool → String
  | true => "True"
  | false => "False"

/-- Decimal digits to a number; `none` when a non-digit appears. -/
def parseDigitsAux : List Char → Nat → Option Nat
  | [], acc => some acc
  | c :: cs, acc =>
    if c.isDigit then parseDigitsAux cs (acc * 10 + (c.toNat - 48)) else none

/-- Model of Python `int(s)`: strips surrounding whitespace, then parses an
optionally signed nonempty decimal integer; raises (here: `none`)
otherwise. -/
def pyInt (s : String) : Option Int :=
  let cs := ((s.toList.dropWhile Char.isWhitespace).reverse.dropWhile
    Char.isWhitespace).reverse
  match cs with
  | [] => none
  | '-' :: rest =>
    if rest = [] then none else (parseDigitsAux rest 0).map (fun n => -(n : Int))
  | '+' :: rest =>
    if rest = [] then none else (parseDigitsAux rest 0).map (fun n => (n : Int))
  | _ => (parseDigitsAux cs 0).map (fun n => (n : Int))

/-- One of the two connection-parameter dictionaries.  `host`, `user` and
`password` come from `os.environ.get` with no default, hence optional;
`database` and `sslmode` have defaults. -/
structure DBConfig where
  host : Option String
  user : Option String
  password : Option String
  database : String
  sslmode : String
deriving Repr, DecidableEq

/-- `PRIMARY_DB_CONFIG` of the script, as a function of the environment. -/
def PRIMARY_DB_CONFIG (env : Env) : DBConfig where
  host := env "AZURE_POSTGRES_PRIMARY_HOST"
  user := env "AZURE_POSTGRES_PRIMARY_USER"
  password := env "AZURE_POSTGRES_PRIMARY_PASSWORD"
  database := (env "AZURE_POSTGRES_PRIMARY_DB").getD "products"
  sslmode := (env "AZURE_POSTGRES_SSL_MODE").getD "require"

/-- `REPLICA_DB_CONFIG` of the script, as a function of the environment. -/
def REPLICA_DB_CONFIG (env : Env) : DBConfig where
  host := env "AZURE_POSTGRES_REPLICA_HOST"
  user := env "AZURE_POSTGRES_REPLICA_USER"
  password := env "AZURE_POSTGRES_REPLICA_PASSWORD"
  database := (env "AZURE_POSTGRES_REPLICA_DB").getD "sales"
  sslmode := (env "AZURE_POSTGRES_SSL_MODE").getD "require"

/-- A row of `pg_subscription` as read by the status query. -/
structure SubRow where
  subname : String
  subenabled : Bool
  subconninfo : String
deriving Repr, DecidableEq

/-- A row of the `pg_subscription_rel` join as read by the stats query. -/
structure RelRow where
  subname : String
  srsubstate : String
  relation : String
deriving Repr, DecidableEq

/-- The state of the outside world as the script observes it: environment,
whether each connection attempt succeeds, the value each `SHOW` query on the
primary returns (`none` = the query raises), the catalog counts the two
existence checks return (`none` = the query raises), whether each CREATE
statement succeeds, whether the status queries succeed, and the catalog
contents the status queries read. -/
structure World where
  env : Env
  primaryConnOk : Bool
  replicaConnOk : Bool
  walLevel : Option String
  maxReplicationSlots : Option String
  maxWalSenders : Option String
  pubCount : Option Nat
  createPublicationOk : Bool
  subCount : Option Nat
  createSubscriptionOk : Bool
  statusQueriesOk : Bool
  subscriptions : List SubRow
  subRels : List RelRow

/-- SQLAlchemy execution mode of a connection: plain (explicit transaction
blocks) or `AUTOCOMMIT` (each statement commits immediately, never wrapped
in a transaction block). -/
inductive IsolationMode
  | plain
  | autocommit
deriving Repr, DecidableEq

/-- The SQL statements the script can issue.  `dropPublication` is in the
statement language so that its absence from every trace is expressible; the
script never emits it. -/
inductive Stmt
  | selectOne
  | showParam (param : String)
  | pubCountQuery (name : String)
  | createPublication (name : String)
  | subCountQuery (name : String)
  | createSubscription (subname : String) (conninfo : String) (pubname : String)
  | dropPublication (name : String)
  | subStatusQuery
  | subRelStatsQuery
deriving Repr, DecidableEq

/-- Observable events of a run. -/
inductive Event
  | connect (host : Option String)
  | exec (mode : IsolationMode) (stmt : Stmt)
  | print (line : String)
deriving Repr, DecidableEq

/-- The `required_vars` list of `check_env_vars`. -/
def required_vars : List String :=
  [ "AZURE_POSTGRES_PRIMARY_HOST",
    "AZURE_POSTGRES_PRIMARY_USER",
    "AZURE_POSTGRES_PRIMARY_PASSWORD",
    "AZURE_POSTGRES_PRIMARY_SERVER_NAME",
    "AZURE_POSTGRES_REPLICA_HOST",
    "AZURE_POSTGRES_REPLICA_USER",
    "AZURE_POSTGRES_REPLICA_PASSWORD",
    "AZURE_POSTGRES_REPLICA_SERVER_NAME" ]

/-- The `missing_vars` comprehension of `check_env_vars`. -/
def missing_vars (env : Env) : List String :=
  required_vars.filter (fun v => !truthy (env v))

/-- `check_env_vars`: exits with code 1 when a required variable is missing,
else returns `True`. -/
def check_env_vars (env : Env) : Except Nat Bool × List Event :=
  if missing_vars env = [] then
    (.ok true, [])
  else
    (.error 1,
     [.print ("Error: Missing required environment variables: "
                ++ String.intercalate ", " (missing_vars env)),
      .print "Please create a .env file with your Azure PostgreSQL credentials."])

/-- `connect_to_database`: builds an engine from `config`, tests it with
`SELECT 1`, and exits with code 1 on any exception.  `connOk` is the
world's verdict on whether this endpoint is reachable. -/
def connect_to_database (connOk : Bool) (config : DBConfig) (description : String) :
    Except Nat Unit × List Event :=
  if connOk then
    (.ok (),
     [.print ("Connecting to " ++ description ++ " database at "
                ++ optStr config.host ++ "..."),
      .connect config.host,
      .exec .plain .selectOne,
      .print ("Connected successfully to " ++ description ++ " database!")])
  else
    (.error 1,
     [.print ("Connecting to " ++ description ++ " database at "
                ++ optStr config.host ++ "..."),
      .connect config.host,
      .print ("Error connecting to " ++ description ++ " PostgreSQL: connection failed")])

/-- `check_logical_replication_settings`, run against the primary: the three
`SHOW` queries in order, early `False` when `wal_level` is not `logical`,
advisory warnings for low `max_replication_slots` / `max_wal_senders`, and a
catch-all that turns any exception (a failing query, or `int()` on a
non-numeric value) into `False`. -/
def check_logical_replication_settings (w : World) : Bool × List Event :=
  let t0 : List Event := [.exec .plain (.showParam "wal_level")]
  match w.walLevel with
  | none => (false, t0 ++ [.print "Error checking replication settings: query failed"])
  | some result =>
    if result ≠ "logical" then
      (false,
       t0 ++ [.print ("WARNING: wal_level is set to '" ++ result ++ "' instead of 'logical'"),
              .print "Logical replication requires wal_level to be set to 'logical'",
              .print "This needs to be configured at the server level in Azure Portal"])
    else
      let t1 := t0 ++ [Event.exec .plain (.showParam "max_replication_slots")]
      match w.maxReplicationSlots with
      | none => (false, t1 ++ [.print "Error checking replication settings: query failed"])
      | some replication_slots =>
        match pyInt replication_slots with
        | none =>
          (false, t1 ++ [.print "Error checking replication settings: invalid int literal"])
        | some nslots =>
          let tw1 : List Event :=
            if nslots < 5 then
              [.print ("WARNING: max_replication_slots is set to " ++ replication_slots),
               .print "Consider increasing max_replication_slots in server parameters"]
            else []
          let t2 := t1 ++ tw1 ++ [Event.exec .plain (.showParam "max_wal_senders")]
          match w.maxWalSenders with
          | none => (false, t2 ++ [.print "Error checking replication settings: query failed"])
          | some wal_senders =>
            match pyInt wal_senders with
            | none =>
              (false, t2 ++ [.print "Error checking replication settings: invalid int literal"])
            | some nsenders =>
              let tw2 : List Event :=
                if nsenders < 10 then
                  [.print ("WARNING: max_wal_senders is set to " ++ wal_senders),
                   .print "Consider increasing max_wal_senders in server parameters"]
                else []
              (true, t2 ++ tw2 ++ [.print "Logical replication is properly configured."])

/-- `create_publication`, run against the primary: existence check on
`pg_publication`, idempotent short-circuit, otherwise
`CREATE PUBLICATION ... FOR ALL TABLES`; any exception yields `None`. -/
def create_publication (w : World) : Option String × World × List Event :=
  let publication_name := "products_publication"
  let t0 : List Event := [.exec .plain (.pubCountQuery publication_name)]
  match w.pubCount with
  | none => (none, w, t0 ++ [.print "Error creating publication: query failed"])
  | some result =>
    if result > 0 then
      (some publication_name, w,
       t0 ++ [.print ("Publication '" ++ publication_name ++ "' already exists.")])
    else
      let t1 := t0 ++ [Event.exec .plain (.createPublication publication_name)]
      if w.createPublicationOk then
        (some publication_name, { w with pubCount := some 1 },
         t1 ++ [.print ("Successfully created publication '" ++ publication_name ++ "'")])
      else
        (none, w, t1 ++ [.print "Error creating publication: create failed"])

/-- The conninfo string `create_subscription` interpolates into
`CREATE SUBSCRIPTION`, assembled from the module-level `PRIMARY_DB_CONFIG`. -/
def subscription_conninfo (env : Env) : String :=
  "host=" ++ optStr (PRIMARY_DB_CONFIG env).host
    ++ " dbname=" ++ (PRIMARY_DB_CONFIG env).database
    ++ " user=" ++ optStr (PRIMARY_DB_CONFIG env).user
    ++ " password=" ++ optStr (PRIMARY_DB_CONFIG env).password
    ++ " sslmode=" ++ (PRIMARY_DB_CONFIG env).sslmode

/-- `create_subscription`, run against the replica: the connection is put in
`AUTOCOMMIT` mode before any statement, then existence check on
`pg_subscription`, idempotent short-circuit, otherwise
`CREATE SUBSCRIPTION ... CONNECTION '...' PUBLICATION ...`; on success the
new row (with the full conninfo) is visible in `pg_subscription`. -/
def create_subscription (w : World) (publication_name : String) :
    Bool × World × List Event :=
  let subscription_name := "sales_subscription"
  let t0 : List Event := [.exec .autocommit (.subCountQuery subscription_name)]
  match w.subCount with
  | none => (false, w, t0 ++ [.print "Error creating subscription: query failed"])
  | some result =>
    if result > 0 then
      (true, w,
       t0 ++ [.print ("Subscription '" ++ subscription_name ++ "' already exists.")])
    else
      let connection_string := subscription_conninfo w.env
      let t1 := t0 ++
        [Event.exec .autocommit
          (.createSubscription subscription_name connection_string publication_name)]
      if w.createSubscriptionOk then
        (true,
         { w with subCount := some 1,
                  subscriptions := w.subscriptions
                    ++ [⟨subscription_name, true, connection_string⟩] },
         t1 ++ [.print ("Successfully created subscription '" ++ subscription_name ++ "'")])
      else
        (false, w, t1 ++ [.print "Error creating subscription: create failed"])

/-- The three printed lines for one `pg_subscription` row. -/
def subRowLines (r : SubRow) : List Event :=
  [.print ("Name: " ++ r.subname),
   .print ("Enabled: " ++ pyBool r.subenabled),
   .print ("Connection: " ++ r.subconninfo)]

/-- The printed line for one `pg_subscription_rel` stats row. -/
def relRowLine (r : RelRow) : Event :=
  .print ("Subscription: " ++ r.subname ++ ", State: " ++ r.srsubstate
            ++ ", Relation: " ++ r.relation)

/-- `check_replication_status`, run against the replica: lists subscriptions
(reporting "No subscriptions found." on an empty catalog), then the
per-relation stats limited to 10 rows; every exception is caught and logged,
the function always returns `None`. -/
def check_replication_status (w : World) : List Event :=
  let t0 : List Event := [.exec .plain .subStatusQuery]
  if !w.statusQueriesOk then
    t0 ++ [.print "Error checking replication status: query failed"]
  else if w.subscriptions = [] then
    t0 ++ [.print "No subscriptions found."]
  else
    let t1 := t0 ++ [Event.print "\nSubscription Status:"]
      ++ (w.subscriptions.map subRowLines).flatten
    let t2 := t1 ++ [Event.exec .plain .subRelStatsQuery]
    let stats := w.subRels.take 10
    if stats = [] then t2
    else t2 ++ [Event.print "\nReplication Details (top 10 relations):"]
      ++ stats.map relRowLine

/-- The remediation message `setup_replication` prints when the preflight
check fails. -/
def remediation_lines : List Event :=
  [.print "\nLogical replication is not properly configured on the primary server.",
   .print "Please update server parameters in Azure Portal:",
   .print "1. Set wal_level to 'logical'",
   .print "2. Increase max_replication_slots (recommended: 10)",
   .print "3. Increase max_wal_senders (recommended: 10)",
   .print "Note: These changes require a server restart"]

/-- The final message of a fully successful `setup_replication` run. -/
def success_lines : List Event :=
  [.print "\nReplication setup completed successfully!",
   .print "\nNotes:",
   .print "1. Initial data synchronization may take some time depending on data volume",
   .print "2. To monitor replication lag, query: pg_stat_replication on primary",
   .print "3. To check replication status, query: pg_stat_subscription on replica"]

/-- `setup_replication`: primary connection, preflight, publication, replica
connection, subscription, status report, in forced sequence; each fatal
failure exits with code 1 at once. -/
def setup_replication (w : World) : Except Nat Unit × World × List Event :=
  match connect_to_database w.primaryConnOk (PRIMARY_DB_CONFIG w.env) "PRIMARY" with
  | (.error n, t1) => (.error n, w, t1)
  | (.ok _, t1) =>
    match check_logical_replication_settings w with
    | (false, t2) => (.error 1, w, t1 ++ t2 ++ remediation_lines)
    | (true, t2) =>
      match create_publication w with
      | (none, w3, t3) => (.error 1, w3, t1 ++ t2 ++ t3)
      | (some publication_name, w3, t3) =>
        match connect_to_database w3.replicaConnOk (REPLICA_DB_CONFIG w3.env) "REPLICA" with
        | (.error n, t4) => (.error n, w3, t1 ++ t2 ++ t3 ++ t4)
        | (.ok _, t4) =>
          match create_subscription w3 publication_name with
          | (false, w5, t5) => (.error 1, w5, t1 ++ t2 ++ t3 ++ t4 ++ t5)
          | (true, w5, t5) =>
            (.ok (), w5,
             t1 ++ t2 ++ t3 ++ t4 ++ t5 ++ check_replication_status w5 ++ success_lines)

/-- The banner `main` prints before anything else. -/
def header_lines : List Event :=
  [.print "Azure PostgreSQL Replication Setup",
   .print "================================="]

/-- `main`: environment check, then the replication setup. -/
def main (w : World) : Except Nat Unit × World × List Event :=
  match check_env_vars w.env with
  | (.error n, t0) => (.error n, w, header_lines ++ t0)
  | (.ok _, t0) =>
    match setup_replication w with
    | (r, w1, t) => (r, w1, header_lines ++ t0 ++ t)

/-- The process exit code of a run: 0 when `main` returns, `n` when it
called `sys.exit(n)`. -/
def exitCode : Except Nat Unit → Nat
  | .ok _ => 0
  | .error n => n

/-- The connection attempts of a trace, in order. -/
def connects (tr : List Event) : List (Option String) :=
  tr.filterMap (fun e => match e with
    | .connect h => some h
    | _ => none)

/-- An environment built from an association list. -/
def envOfList (l : List (String × String)) : Env :=
  fun v => (l.find? (fun p => p.1 == v)).map (fun p => p.2)

/-- A complete environment: all eight required variables set, the optional
ones absent. -/
def fullEnv : Env :=
  envOfList
    [("AZURE_POSTGRES_PRIMARY_HOST", "primary.example.com"),
     ("AZURE_POSTGRES_PRIMARY_USER", "padmin"),
     ("AZURE_POSTGRES_PRIMARY_PASSWORD", "hunter2"),
     ("AZURE_POSTGRES_PRIMARY_SERVER_NAME", "primary-server"),
     ("AZURE_POSTGRES_REPLICA_HOST", "replica.example.com"),
     ("AZURE_POSTGRES_REPLICA_USER", "radmin"),
     ("AZURE_POSTGRES_REPLICA_PASSWORD", "secret9"),
     ("AZURE_POSTGRES_REPLICA_SERVER_NAME", "replica-server")]

/-- A world in which every stage succeeds first try: wal_level already
logical, generous limits, no pre-existing publication or subscription. -/
def baseWorld : World where
  env := fullEnv
  primaryConnOk := true
  replicaConnOk := true
  walLevel := some "logical"
  maxReplicationSlots := some "10"
  maxWalSenders := some "10"
  pubCount := some 0
  createPublicationOk := true
  subCount := some 0
  createSubscriptionOk := true
  statusQueriesOk := true
  subscriptions := []
  subRels := []

/-- The Python return value of `create_publication` as a function of the
relevant world fields. -/
theorem create_publication_fst (w : World) :
    (create_publication w).1 =
      (match w.pubCount with
       | none => none
       | some c =>
         if c > 0 then some "products_publication"
         else if w.createPublicationOk then some "products_publication" else none) := by
  rcases h : w.pubCount with _ | c
  · simp [create_publication, h]
  · by_cases hc : c > 0
    · simp [create_publication, h, hc]
    · by_cases hok : w.createPublicationOk <;> simp [create_publication, h, hc, hok]

/-- The Python return value of `create_subscription` as a function of the
relevant world fields (the publication name does not affect it). -/
theorem create_subscription_fst (w : World) (pn : String) :
    (create_subscription w pn).1 =
      (match w.subCount with
       | none => false
       | some c => if c > 0 then true else w.createSubscriptionOk) := by
  rcases h : w.subCount with _ | c
  · simp [create_subscription, h]
  · by_cases hc : c > 0
    · simp [create_subscription, h, hc]
    · by_cases hok : w.createSubscriptionOk <;> simp [create_subscription, h, hc, hok]

/-- `create_publication` only touches `pg_publication`: every other world
field is unchanged. -/
theorem create_publication_world_fields (w : World) :
    ((create_publication w).2.1).env = w.env ∧
    ((create_publication w).2.1).replicaConnOk = w.replicaConnOk ∧
    ((create_publication w).2.1).subCount = w.subCount ∧
    ((create_publication w).2.1).createSubscriptionOk = w.createSubscriptionOk ∧
    ((create_publication w).2.1).subscriptions = w.subscriptions ∧
    ((create_publication w).2.1).statusQueriesOk = w.statusQueriesOk ∧
    ((create_publication w).2.1).subRels = w.subRels := by
  rcases h : w.pubCount with _ | c
  · simp [create_publication, h]
  · by_cases hc : c > 0
    · simp [create_publication, h, hc]
    · by_cases hok : w.createPublicationOk <;> simp [create_publication, h, hc, hok]

/-- When `create_publication` returns a name, it is `products_publication`. -/
theorem create_publication_name (w : World) (n : String)
    (h : (create_publication w).1 = some n) : n = "products_publication" := by
  rw [create_publication_fst] at h
  rcases hc : w.pubCount with _ | c <;> rw [hc] at h
  · simp at h
  · by_cases hgt : c > 0
    · simp [hgt] at h; exact h.symm
    · by_cases hok : w.createPublicationOk <;> simp [hgt, hok] at h
      exact h.symm

/-- Running `create_subscription` after `create_publication` gives the same
verdict as running it on the original world. -/
theorem create_subscription_after_pub (w : World) (pn : String) :
    (create_subscription ((create_publication w).2.1) pn).1 =
      (create_subscription w pn).1 := by
  rw [create_subscription_fst, create_subscription_fst,
    (create_publication_world_fields w).2.2.1,
    (create_publication_world_fields w).2.2.2.1]

/-- The condition under which `setup_replication` reaches its success path. -/
def setupOk (w : World) : Prop :=
  w.primaryConnOk = true ∧
  (check_logical_replication_settings w).1 = true ∧
  (create_publication w).1.isSome = true ∧
  w.replicaConnOk = true ∧
  (create_subscription w "products_publication").1 = true

instance (w : World) : Decidable (setupOk w) := by
  unfold setupOk; infer_instance

/-- The preflight check on a world whose `wal_level` is not `logical`. -/
theorem check_fst_of_wal_not_logical (w : World) (wl : String)
    (hw : w.walLevel = some wl) (hwl : wl ≠ "logical") :
    check_logical_replication_settings w =
      (false,
       [.exec .plain (.showParam "wal_level"),
        .print ("WARNING: wal_level is set to '" ++ wl ++ "' instead of 'logical'"),
        .print "Logical replication requires wal_level to be set to 'logical'",
        .print "This needs to be configured at the server level in Azure Portal"]) := by
  simp [check_logical_replication_settings, hw, hwl]

/-- The outcome of `setup_replication` is `ok` exactly under `setupOk`, and
`sys.exit(1)` otherwise. -/
theorem setup_fst_eq (w : World) :
    (setup_replication w).1 = if setupOk w then Except.ok () else Except.error 1 := by
  unfold setup_replication
  cases hpc : w.primaryConnOk
  · simp [connect_to_database, setupOk, hpc]
  · rcases h2 : check_logical_replication_settings w with ⟨b2, t2⟩
    cases b2
    · simp [connect_to_database, setupOk, hpc, h2]
    · rcases h3 : create_publication w with ⟨pr, w3, t3⟩
      rcases pr with _ | pn
      · simp [connect_to_database, setupOk, hpc, h2, h3]
      · have hpn : pn = "products_publication" :=
          create_publication_name w pn (by rw [h3])
        subst hpn
        have hf := create_publication_world_fields w
        rw [h3] at hf
        dsimp only at hf
        have hsub := create_subscription_after_pub w "products_publication"
        rw [h3] at hsub
        dsimp only at hsub
        rcases hf with ⟨-, hrc, -, -, -, -, -⟩
        cases hrce : w.replicaConnOk
        · simp [connect_to_database, setupOk, hpc, h2, h3, hrc, hrce]
        · rcases h5 : create_subscription w3 "products_publication" with ⟨b5, w5, t5⟩
          rw [h5] at hsub
          dsimp only at hsub
          cases b5 <;>
            simp [connect_to_database, setupOk, hpc, h2, h3, h5, hrc, hrce, ← hsub]

/-- The outcome of `main`: `ok` exactly when the environment is complete and
every stage succeeds, `sys.exit(1)` otherwise. -/
theorem main_fst_eq (w : World) :
    (main w).1 =
      if missing_vars w.env = [] ∧ setupOk w then Except.ok () else Except.error 1 := by
  unfold main
  by_cases hm : missing_vars w.env = []
  · rcases hs : setup_replication w with ⟨r, w1, t⟩
    have hr := setup_fst_eq w
    rw [hs] at hr
    simp only at hr
    simp [check_env_vars, hm, hs, hr]
  · simp [check_env_vars, hm]

/-- Claim C1: when a publication named `products_publication` already exists
on the primary (catalog count positive), `create_publication` returns the
publication name without executing any `CREATE PUBLICATION`; and when a
subscription named `sales_subscription` already exists on the replica,
`create_subscription` returns `True` without executing any
`CREATE SUBSCRIPTION` — re-running creation is a no-op, not an error and
not a duplicate. -/
theorem c1_idempotent_creation (w : World) :
    (∀ c : Nat, w.pubCount = some c → 0 < c →
      (create_publication w).1 = some "products_publication" ∧
      ∀ m n, Event.exec m (Stmt.createPublication n) ∉ (create_publication w).2.2) ∧
    (∀ c : Nat, ∀ pn : String, w.subCount = some c → 0 < c →
      (create_subscription w pn).1 = true ∧
      ∀ m sn ci p, Event.exec m (Stmt.createSubscription sn ci p)
        ∉ (create_subscription w pn).2.2) := by
  constructor
  · intro c hc hpos
    constructor
    · simp [create_publication, hc, hpos]
    · intro m n
      simp [create_publication, hc, hpos]
  · intro c pn hc hpos
    constructor
    · simp [create_subscription, hc, hpos]
    · intro m sn ci p
      simp [create_subscription, hc, hpos]

/-- Witness for C1 at a world where both resources already exist. -/
theorem c1_idempotent_creation_witness :
    (create_publication { baseWorld with pubCount := some 1, subCount := some 1 }).1
        = some "products_publication" ∧
    (create_subscription { baseWorld with pubCount := some 1, subCount := some 1 }
        "products_publication").1 = true :=
  ⟨((c1_idempotent_creation _).1 1 rfl (by decide)).1,
   ((c1_idempotent_creation _).2 1 "products_publication" rfl (by decide)).1⟩

/-- Claim C2: when the three settings queries succeed (values present and,
for the two limits, numeric), the preflight verdict is `true` iff
`wal_level` is `logical`; sub-threshold `max_replication_slots` (< 5) or
`max_wal_senders` (< 10) still give `true` and print a warning for each
sub-threshold setting instead of failing. -/
theorem c2_preflight_decision_rule (w : World) (wl s d : String) (ns nd : Int)
    (hw : w.walLevel = some wl)
    (hs : w.maxReplicationSlots = some s) (hns : pyInt s = some ns)
    (hd : w.maxWalSenders = some d) (hnd : pyInt d = some nd) :
    ((check_logical_replication_settings w).1 = true ↔ wl = "logical") ∧
    (wl = "logical" → ns < 5 →
      Event.print ("WARNING: max_replication_slots is set to " ++ s)
        ∈ (check_logical_replication_settings w).2) ∧
    (wl = "logical" → nd < 10 →
      Event.print ("WARNING: max_wal_senders is set to " ++ d)
        ∈ (check_logical_replication_settings w).2) := by
  by_cases hwl : wl = "logical"
  · subst hwl
    refine ⟨by simp [check_logical_replication_settings, hw, hs, hns, hd, hnd], ?_, ?_⟩
    · intro _ hlt
      by_cases hnd10 : nd < 10 <;>
        simp [check_logical_replication_settings, hw, hs, hns, hd, hnd, hlt, hnd10]
    · intro _ hlt
      by_cases hns5 : ns < 5 <;>
        simp [check_logical_replication_settings, hw, hs, hns, hd, hnd, hlt, hns5]
  · rw [check_fst_of_wal_not_logical w wl hw hwl]
    simp [hwl]

/-- Witness for C2 at `wal_level = logical`, `max_replication_slots = 3`. -/
theorem c2_preflight_decision_rule_witness :
    ((check_logical_replication_settings
        { baseWorld with maxReplicationSlots := some "3" }).1 = true
      ↔ ("logical" : String) = "logical") ∧
    (("logical" : String) = "logical" → (3 : Int) < 5 →
      Event.print ("WARNING: max_replication_slots is set to " ++ "3")
        ∈ (check_logical_replication_settings
            { baseWorld with maxReplicationSlots := some "3" }).2) ∧
    (("logical" : String) = "logical" → (10 : Int) < 10 →
      Event.print ("WARNING: max_wal_senders is set to " ++ "10")
        ∈ (check_logical_replication_settings
            { baseWorld with maxReplicationSlots := some "3" }).2) :=
  c2_preflight_decision_rule _ "logical" "3" "10" 3 10 rfl rfl (by decide) rfl (by decide)

/-- Claim C3: when the primary reports a `wal_level` other than `logical`,
the preflight verdict is `false` and the orchestrator exits with code 1
having issued no publication-existence query, no `CREATE PUBLICATION`, and
no connection other than the primary one. -/
theorem c3_preflight_halts_run (w : World) (wl : String)
    (hconn : w.primaryConnOk = true)
    (hw : w.walLevel = some wl) (hwl : wl ≠ "logical") :
    (check_logical_replication_settings w).1 = false ∧
    (setup_replication w).1 = Except.error 1 ∧
    (∀ m n, Event.exec m (Stmt.pubCountQuery n) ∉ (setup_replication w).2.2) ∧
    (∀ m n, Event.exec m (Stmt.createPublication n) ∉ (setup_replication w).2.2) ∧
    connects (setup_replication w).2.2 = [(PRIMARY_DB_CONFIG w.env).host] := by
  refine ⟨?_, ?_, ?_, ?_, ?_⟩ <;>
    simp [setup_replication, connect_to_database, hconn,
      check_fst_of_wal_not_logical w wl hw hwl, remediation_lines, connects]

/-- Witness for C3 at `wal_level = replica`. -/
theorem c3_preflight_halts_run_witness :
    (check_logical_replication_settings { baseWorld with walLevel := some "replica" }).1
        = false ∧
    (setup_replication { baseWorld with walLevel := some "replica" }).1
        = Except.error 1 ∧
    (∀ m n, Event.exec m (Stmt.pubCountQuery n)
        ∉ (setup_replication { baseWorld with walLevel := some "replica" }).2.2) ∧
    (∀ m n, Event.exec m (Stmt.createPublication n)
        ∉ (setup_replication { baseWorld with walLevel := some "replica" }).2.2) ∧
    connects (setup_replication { baseWorld with walLevel := some "replica" }).2.2
        = [(PRIMARY_DB_CONFIG ({ baseWorld with walLevel := some "replica" } : World).env).host] :=
  c3_preflight_halts_run _ "replica" rfl rfl (by decide)

/-- Claim C5: when configuration, both connections, preflight, publication
and subscription creation all succeed, the run exits with code 0 (whatever
the status-reporting queries do — their failure is swallowed inside
`check_replication_status`, which returns normally by construction);
conversely any fatal stage failure gives exit code 1. -/
theorem c5_exit_code_contract (w : World) :
    ((missing_vars w.env = [] ∧ w.primaryConnOk = true ∧
      (check_logical_replication_settings w).1 = true ∧
      (create_publication w).1.isSome = true ∧
      w.replicaConnOk = true ∧
      (create_subscription w "products_publication").1 = true) →
      exitCode (main w).1 = 0) ∧
    ((missing_vars w.env ≠ [] ∨ w.primaryConnOk = false ∨
      (check_logical_replication_settings w).1 = false ∨
      (create_publication w).1 = none ∨ w.replicaConnOk = false ∨
      (create_subscription w "products_publication").1 = false) →
      exitCode (main w).1 = 1) := by
  constructor
  · intro h
    rw [main_fst_eq, if_pos ⟨h.1, h.2⟩]
    rfl
  · intro h
    have hneg : ¬ (missing_vars w.env = [] ∧ setupOk w) := by
      rintro ⟨hm, hok⟩
      unfold setupOk at hok
      obtain ⟨h1, h2, h3, h4, h5⟩ := hok
      rcases h with h | h | h | h | h | h
      · exact h hm
      · simp [h1] at h
      · simp [h2] at h
      · rw [h] at h3; simp at h3
      · simp [h4] at h
      · simp [h5] at h
    rw [main_fst_eq, if_neg hneg]
    rfl

/-- Witness for C5: a run with failing status queries still exits 0; a run
with a failing `CREATE SUBSCRIPTION` exits 1. -/
theorem c5_exit_code_contract_witness :
    exitCode (main { baseWorld with statusQueriesOk := false }).1 = 0 ∧
    exitCode (main { baseWorld with createSubscriptionOk := false }).1 = 1 :=
  ⟨(c5_exit_code_contract _).1
      ⟨by decide, by decide, by decide, by decide, by decide, by decide⟩,
   (c5_exit_code_contract _).2
      (Or.inr (Or.inr (Or.inr (Or.inr (Or.inr (by decide))))))⟩

/-- Claim C4: whenever `create_subscription` issues its
`CREATE SUBSCRIPTION` statement, the connection executing it is in
autocommit (implicit-transaction) mode — indeed every statement the
function executes is — so the statement is never wrapped in an explicit
transaction block and the engine's rejection of `CREATE SUBSCRIPTION`
inside a transaction block is unreachable. -/
theorem c4_subscription_autocommit (w : World) (pn : String) :
    (∀ m sn ci p, Event.exec m (Stmt.createSubscription sn ci p)
        ∈ (create_subscription w pn).2.2 → m = IsolationMode.autocommit) ∧
    (∀ m st, Event.exec m st ∈ (create_subscription w pn).2.2 →
        m = IsolationMode.autocommit) := by
  have key : ∀ m st, Event.exec m st ∈ (create_subscription w pn).2.2 →
      m = IsolationMode.autocommit := by
    intro m st hmem
    rcases hc : w.subCount with _ | c
    · simp [create_subscription, hc] at hmem
      exact hmem.1
    · by_cases hgt : c > 0
      · simp [create_subscription, hc, hgt] at hmem
        exact hmem.1
      · by_cases hok : w.createSubscriptionOk <;>
          simp [create_subscription, hc, hgt, hok] at hmem <;>
          rcases hmem with h | h <;> exact h.1
  exact ⟨fun m sn ci p h => key m _ h, key⟩

/-- Witness for C4: in the world where the subscription gets created, the
`CREATE SUBSCRIPTION` statement does appear in the trace, in autocommit
mode. -/
theorem c4_subscription_autocommit_witness :
    Event.exec IsolationMode.autocommit
        (Stmt.createSubscription "sales_subscription" (subscription_conninfo fullEnv)
          "products_publication")
      ∈ (create_subscription baseWorld "products_publication").2.2 ∧
    IsolationMode.autocommit = IsolationMode.autocommit :=
  ⟨by decide,
   (c4_subscription_autocommit baseWorld "products_publication").1
     IsolationMode.autocommit "sales_subscription" (subscription_conninfo fullEnv)
     "products_publication" (by decide)⟩

/-- Claim C6: with a required connection parameter missing, `main` exits
with code 1 out of `check_env_vars`, attempting no database connection and
no liveness query. -/
theorem c6_missing_config_halts (w : World) (h : missing_vars w.env ≠ []) :
    (main w).1 = Except.error 1 ∧
    connects (main w).2.2 = [] ∧
    (∀ m, Event.exec m Stmt.selectOne ∉ (main w).2.2) := by
  refine ⟨?_, ?_, ?_⟩ <;>
    simp [main, check_env_vars, h, connects, header_lines]

/-- Witness for C6 at the empty environment. -/
theorem c6_missing_config_halts_witness :
    (main { baseWorld with env := envOfList [] }).1 = Except.error 1 ∧
    connects (main { baseWorld with env := envOfList [] }).2.2 = [] ∧
    (∀ m, Event.exec m Stmt.selectOne
      ∉ (main { baseWorld with env := envOfList [] }).2.2) :=
  c6_missing_config_halts _ (by decide)

/-- `connect_to_database` never issues `DROP PUBLICATION`. -/
theorem connect_no_drop (ok : Bool) (cfg : DBConfig) (d : String)
    (m : IsolationMode) (n : String) :
    Event.exec m (Stmt.dropPublication n) ∉ (connect_to_database ok cfg d).2 := by
  cases ok <;> simp [connect_to_database]

/-- The preflight check never issues `DROP PUBLICATION`. -/
theorem check_no_drop (w : World) (m : IsolationMode) (n : String) :
    Event.exec m (Stmt.dropPublication n)
      ∉ (check_logical_replication_settings w).2 := by
  intro hmem
  unfold check_logical_replication_settings at hmem
  dsimp only at hmem
  repeat' split at hmem
  all_goals simp_all

/-- `create_publication` never issues `DROP PUBLICATION`. -/
theorem pub_no_drop (w : World) (m : IsolationMode) (n : String) :
    Event.exec m (Stmt.dropPublication n) ∉ (create_publication w).2.2 := by
  intro hmem
  unfold create_publication at hmem
  dsimp only at hmem
  repeat' split at hmem
  all_goals simp_all

/-- `create_subscription` never issues `DROP PUBLICATION`. -/
theorem sub_no_drop (w : World) (pn : String) (m : IsolationMode) (n : String) :
    Event.exec m (Stmt.dropPublication n) ∉ (create_subscription w pn).2.2 := by
  intro hmem
  unfold create_subscription at hmem
  dsimp only at hmem
  repeat' split at hmem
  all_goals simp_all

/-- The status report never issues `DROP PUBLICATION`. -/
theorem status_no_drop (w : World) (m : IsolationMode) (n : String) :
    Event.exec m (Stmt.dropPublication n) ∉ check_replication_status w := by
  intro hmem
  unfold check_replication_status at hmem
  dsimp only at hmem
  repeat' split at hmem
  all_goals
    simp_all [subRowLines, relRowLine, List.mem_flatten, List.mem_map]
  have h := List.take_subset 10 (List.map relRowLine w.subRels) hmem
  simp [List.mem_map, relRowLine] at h

/-- The whole orchestration never issues `DROP PUBLICATION`. -/
theorem setup_no_drop (w : World) (m : IsolationMode) (n : String) :
    Event.exec m (Stmt.dropPublication n) ∉ (setup_replication w).2.2 := by
  unfold setup_replication
  rcases h1 : connect_to_database w.primaryConnOk (PRIMARY_DB_CONFIG w.env) "PRIMARY"
    with ⟨r1, t1⟩
  have ht1 := connect_no_drop w.primaryConnOk (PRIMARY_DB_CONFIG w.env) "PRIMARY" m n
  rw [h1] at ht1
  dsimp only at ht1
  rcases r1 with n1 | u1
  · simpa using ht1
  · rcases h2 : check_logical_replication_settings w with ⟨b2, t2⟩
    have ht2 := check_no_drop w m n
    rw [h2] at ht2
    dsimp only at ht2
    cases b2
    · simp [remediation_lines, ht1, ht2]
    · rcases h3 : create_publication w with ⟨pr, w3, t3⟩
      have ht3 := pub_no_drop w m n
      rw [h3] at ht3
      dsimp only at ht3
      rcases pr with _ | pn
      · simp [ht1, ht2, ht3]
      · rcases h4 : connect_to_database w3.replicaConnOk (REPLICA_DB_CONFIG w3.env)
          "REPLICA" with ⟨r4, t4⟩
        have ht4 := connect_no_drop w3.replicaConnOk (REPLICA_DB_CONFIG w3.env)
          "REPLICA" m n
        rw [h4] at ht4
        dsimp only at ht4
        rcases r4 with n4 | u4
        · simp [h4, ht1, ht2, ht3, ht4]
        · rcases h5 : create_subscription w3 pn with ⟨b5, w5, t5⟩
          have ht5 := sub_no_drop w3 pn m n
          rw [h5] at ht5
          dsimp only at ht5
          cases b5
          · simp [h4, h5, ht1, ht2, ht3, ht4, ht5]
          · simp [h4, h5, ht1, ht2, ht3, ht4, ht5, status_no_drop w5 m n, success_lines]

/-- Claim C7: when publication creation succeeded but subscription creation
fails, the run terminates with a non-zero outcome and no `DROP PUBLICATION`
(nothing undoing the publication) is ever issued: the publication is left
in place. -/
theorem c7_no_rollback (w : World)
    (hpub : (create_publication w).1.isSome = true)
    (hsub : (create_subscription w "products_publication").1 = false) :
    (setup_replication w).1 = Except.error 1 ∧
    ∀ m n, Event.exec m (Stmt.dropPublication n) ∉ (setup_replication w).2.2 := by
  constructor
  · have hnot : ¬ setupOk w := by
      intro hok
      unfold setupOk at hok
      have h5 := hok.2.2.2.2
      rw [hsub] at h5
      cases h5
    rw [setup_fst_eq, if_neg hnot]
  · exact setup_no_drop w

/-- Witness for C7: publication created, `CREATE SUBSCRIPTION` fails. -/
theorem c7_no_rollback_witness :
    (setup_replication { baseWorld with createSubscriptionOk := false }).1
        = Except.error 1 ∧
    ∀ m n, Event.exec m (Stmt.dropPublication n)
      ∉ (setup_replication { baseWorld with createSubscriptionOk := false }).2.2 :=
  c7_no_rollback _ (by decide) (by decide)

/-- Claim C8: the database names and the SSL mode are not in
`required_vars`; when they are unset, the two configs fall back to
`products`, `sales` and `require` and `check_env_vars` still passes. -/
theorem c8_optional_db_and_ssl (w : World)
    (h1 : w.env "AZURE_POSTGRES_PRIMARY_DB" = none)
    (h2 : w.env "AZURE_POSTGRES_REPLICA_DB" = none)
    (h3 : w.env "AZURE_POSTGRES_SSL_MODE" = none)
    (h4 : missing_vars w.env = []) :
    "AZURE_POSTGRES_PRIMARY_DB" ∉ required_vars ∧
    "AZURE_POSTGRES_REPLICA_DB" ∉ required_vars ∧
    "AZURE_POSTGRES_SSL_MODE" ∉ required_vars ∧
    (PRIMARY_DB_CONFIG w.env).database = "products" ∧
    (REPLICA_DB_CONFIG w.env).database = "sales" ∧
    (PRIMARY_DB_CONFIG w.env).sslmode = "require" ∧
    (REPLICA_DB_CONFIG w.env).sslmode = "require" ∧
    (check_env_vars w.env).1 = Except.ok true := by
  refine ⟨by decide, by decide, by decide, ?_, ?_, ?_, ?_, ?_⟩ <;>
    simp [PRIMARY_DB_CONFIG, REPLICA_DB_CONFIG, check_env_vars, h1, h2, h3, h4]

/-- Witness for C8 at the environment holding exactly the eight required
variables. -/
theorem c8_optional_db_and_ssl_witness :
    "AZURE_POSTGRES_PRIMARY_DB" ∉ required_vars ∧
    "AZURE_POSTGRES_REPLICA_DB" ∉ required_vars ∧
    "AZURE_POSTGRES_SSL_MODE" ∉ required_vars ∧
    (PRIMARY_DB_CONFIG baseWorld.env).database = "products" ∧
    (REPLICA_DB_CONFIG baseWorld.env).database = "sales" ∧
    (PRIMARY_DB_CONFIG baseWorld.env).sslmode = "require" ∧
    (REPLICA_DB_CONFIG baseWorld.env).sslmode = "require" ∧
    (check_env_vars baseWorld.env).1 = Except.ok true :=
  c8_optional_db_and_ssl baseWorld (by decide) (by decide) (by decide) (by decide)

/-- A run of the preflight check in which one of the three `SHOW` queries
raises, or the fetched value cannot be parsed by `int()`, given the order
in which the code reaches them. -/
def preflightQueryFault (w : World) : Prop :=
  w.walLevel = none ∨
  (w.walLevel = some "logical" ∧
    (w.maxReplicationSlots = none ∨
     (∃ s, w.maxReplicationSlots = some s ∧ pyInt s = none) ∨
     ((∃ s ns, w.maxReplicationSlots = some s ∧ pyInt s = some ns) ∧
      (w.maxWalSenders = none ∨
       ∃ d, w.maxWalSenders = some d ∧ pyInt d = none))))

/-- Claim C9: any exception inside the three settings queries (including a
non-numeric `max_replication_slots` or `max_wal_senders`) makes
`check_logical_replication_settings` return `false`, so the orchestrator
exits with code 1 and prints the `wal_level` remediation message — even
when `wal_level` is in fact `logical`. -/
theorem c9_query_fault_reads_as_unready (w : World)
    (hf : preflightQueryFault w) (hconn : w.primaryConnOk = true) :
    (check_logical_replication_settings w).1 = false ∧
    (setup_replication w).1 = Except.error 1 ∧
    Event.print "1. Set wal_level to 'logical'" ∈ (setup_replication w).2.2 := by
  have hfalse : (check_logical_replication_settings w).1 = false := by
    rcases hf with h | ⟨hw, h⟩
    · simp [check_logical_replication_settings, h]
    · rcases h with h | ⟨s, hs, hps⟩ | ⟨⟨s, ns, hs, hps⟩, h⟩
      · simp [check_logical_replication_settings, hw, h]
      · simp [check_logical_replication_settings, hw, hs, hps]
      · rcases h with h | ⟨d, hd, hpd⟩
        · by_cases h5 : ns < 5 <;>
            simp [check_logical_replication_settings, hw, hs, hps, h, h5]
        · by_cases h5 : ns < 5 <;>
            simp [check_logical_replication_settings, hw, hs, hps, hd, hpd, h5]
  refine ⟨hfalse, ?_, ?_⟩
  · have hnot : ¬ setupOk w := by
      intro hok
      unfold setupOk at hok
      have hc := hok.2.1
      rw [hfalse] at hc
      cases hc
    rw [setup_fst_eq, if_neg hnot]
  · rcases h2 : check_logical_replication_settings w with ⟨b2, t2⟩
    have hb : b2 = false := by rw [h2] at hfalse; exact hfalse
    subst hb
    simp [setup_replication, connect_to_database, hconn, h2, remediation_lines]

/-- Witness for C9: `wal_level` is `logical` but `max_replication_slots`
comes back non-numeric. -/
theorem c9_query_fault_reads_as_unready_witness :
    (check_logical_replication_settings
        { baseWorld with maxReplicationSlots := some "oops" }).1 = false ∧
    (setup_replication { baseWorld with maxReplicationSlots := some "oops" }).1
        = Except.error 1 ∧
    Event.print "1. Set wal_level to 'logical'"
      ∈ (setup_replication { baseWorld with maxReplicationSlots := some "oops" }).2.2 :=
  c9_query_fault_reads_as_unready _
    (Or.inr ⟨rfl, Or.inr (Or.inl ⟨"oops", rfl, by decide⟩)⟩) rfl

/-- The full outcome of `create_subscription` when the subscription does not
exist yet and the CREATE succeeds. -/
theorem create_subscription_creates (w : World) (pn : String)
    (hsc : w.subCount = some 0) (hok : w.createSubscriptionOk = true) :
    create_subscription w pn =
      (true,
       { w with subCount := some 1,
                subscriptions := w.subscriptions
                  ++ [⟨"sales_subscription", true, subscription_conninfo w.env⟩] },
       [.exec .autocommit (.subCountQuery "sales_subscription"),
        .exec .autocommit (.createSubscription "sales_subscription"
          (subscription_conninfo w.env) pn),
        .print "Successfully created subscription 'sales_subscription'"]) := by
  simp [create_subscription, hsc, hok]

/-- The status report prints the `subconninfo` of every subscription row. -/
theorem status_prints_conninfo (w : World) (r : SubRow)
    (hst : w.statusQueriesOk = true) (hr : r ∈ w.subscriptions) :
    Event.print ("Connection: " ++ r.subconninfo) ∈ check_replication_status w := by
  have hne : w.subscriptions ≠ [] := by
    intro h; rw [h] at hr; cases hr
  have hmem : Event.print ("Connection: " ++ r.subconninfo)
      ∈ (w.subscriptions.map subRowLines).flatten := by
    rw [List.mem_flatten]
    exact ⟨subRowLines r, List.mem_map_of_mem _ hr, by simp [subRowLines]⟩
  by_cases hrels : w.subRels.take 10 = [] <;>
    simp [check_replication_status, hst, hne, hrels, hmem]

/-- Claim C10: `create_subscription` interpolates the primary password in
plaintext into the conninfo of the `CREATE SUBSCRIPTION` statement, and
`check_replication_status` then prints the `subconninfo` of every
subscription; so every successful run that created the subscription prints
a line containing the primary password. -/
theorem c10_password_reaches_output (w : World) (p : String)
    (hp : w.env "AZURE_POSTGRES_PRIMARY_PASSWORD" = some p)
    (hconn : w.primaryConnOk = true) (hrep : w.replicaConnOk = true)
    (hcheck : (check_logical_replication_settings w).1 = true)
    (hpub : (create_publication w).1.isSome = true)
    (hsc : w.subCount = some 0) (hok : w.createSubscriptionOk = true)
    (hst : w.statusQueriesOk = true) :
    ∃ line, Event.print line ∈ (setup_replication w).2.2 ∧
      ∃ a b, line = a ++ ("password=" ++ p) ++ b := by
  rcases h2 : check_logical_replication_settings w with ⟨b2, t2⟩
  have hb2 : b2 = true := by rw [h2] at hcheck; exact hcheck
  subst hb2
  rcases h3 : create_publication w with ⟨pr, w3, t3⟩
  have hpr : pr.isSome = true := by rw [h3] at hpub; exact hpub
  rcases pr with _ | pn
  · cases hpr
  · have hf := create_publication_world_fields w
    rw [h3] at hf
    dsimp only at hf
    obtain ⟨henv, hrc, hsc3, hok3, hsubs3, hst3, -⟩ := hf
    have h5 := create_subscription_creates w3 pn
      (by rw [hsc3, hsc]) (by rw [hok3, hok])
    have hrow : (⟨"sales_subscription", true, subscription_conninfo w3.env⟩ : SubRow)
        ∈ ((create_subscription w3 pn).2.1).subscriptions := by
      rw [h5]
      simp
    have hstw5 : ((create_subscription w3 pn).2.1).statusQueriesOk = true := by
      rw [h5]
      simpa using hst3.trans hst
    have hline := status_prints_conninfo ((create_subscription w3 pn).2.1)
      ⟨"sales_subscription", true, subscription_conninfo w3.env⟩ hstw5 hrow
    refine ⟨"Connection: " ++ subscription_conninfo w3.env, ?_, ?_⟩
    · simp only [setup_replication, connect_to_database, hconn, hrc, hrep, h2, h3,
        if_true, reduceIte]
      rw [h5] at hline ⊢
      simp only at hline ⊢
      simp [hline]
    · refine ⟨"Connection: " ++ "host=" ++ optStr (PRIMARY_DB_CONFIG w3.env).host
          ++ " dbname=" ++ (PRIMARY_DB_CONFIG w3.env).database
          ++ " user=" ++ optStr (PRIMARY_DB_CONFIG w3.env).user ++ " ",
        " sslmode=" ++ (PRIMARY_DB_CONFIG w3.env).sslmode, ?_⟩
      have hpw : optStr (PRIMARY_DB_CONFIG w3.env).password = p := by
        rw [henv]
        simp [PRIMARY_DB_CONFIG, hp, optStr]
      rw [subscription_conninfo, hpw]
      apply String.ext
      simp only [String.data_append, List.append_assoc]
      rfl

/-- Witness for C10: the fully successful run on `baseWorld` prints a line
containing the primary password `hunter2`. -/
theorem c10_password_reaches_output_witness :
    ∃ line, Event.print line ∈ (setup_replication baseWorld).2.2 ∧
      ∃ a b, line = a ++ ("password=" ++ "hunter2") ++ b :=
  c10_password_reaches_output baseWorld "hunter2" (by decide) rfl rfl (by decide)
    (by decide) rfl rfl rfl

end ReplicationSetup
